import Mathlib

/-!
# v4l4j `DeviceInfo` JNI glue (`src/v4l4j_DeviceInfo.c`)

A shallow embedding of the JNI shim that fills the Java `DeviceInfo` object
from libvideo's `struct device_info`.

* Java values are a datatype `JValue`; an object is represented by the
  `NewObject` call that built it (class, constructor signature, arguments).
* The Java side that the C code can observe or change is a record `JState`:
  the `name` and `formats` fields of the `DeviceInfo` object, the elements of
  its `inputs` list, the exceptions raised through `THROW_EXCEPTION`, and the
  log of JNI / libvideo calls made so far.
* Every JNI call that may return `NULL` asks the environment `JNIEnv`
  whether it succeeds. Each dynamic call has its own `Site`, so the
  environment may answer every call independently.
* `lookupAddMethod` (from the absent `jniutils.h`) is treated like a JNI
  lookup: the environment says whether it returns `NULL`. `XFREE` (from the
  absent `common.h`) is recorded in the call log.
* Logging (`LOG_FN_ENTER`, `dprint`, `info`) and `DeleteLocalRef` do not
  change any of the modelled state and are left out.
-/

namespace V4l4j

/-! ## Java values and the JNI environment -/

/-- Java values crossing the JNI boundary. -/
inductive JValue where
  | null
  | jint (v : Int)
  | jlong (v : Int)
  | jstring (s : String)
  | jintArray (elems : List Int)
  | jobject (cls : String) (sig : String) (args : List JValue)

/-- Modelled from the spec: the exception class constants `JNI_EXCP` and
`GENERIC_EXCP` come from `common.h`, which is absent; only their identity
matters here. -/
inductive Excp where
  | JNI_EXCP
  | GENERIC_EXCP
  deriving DecidableEq, Repr

/-- The dynamic JNI calls that may fail. The index `i` is the loop index of
`create_inputs_object` during which the call is made. -/
inductive Site where
  | tuner_FindClass (i : Nat)
  | tuner_GetMethodID (i : Nat)
  | tuner_NewStringUTF (i : Nat)
  | tuner_NewObject (i : Nat)
  | inputs_FindClass
  | inputs_GetFieldID
  | inputs_GetObjectField
  | inputs_lookupAddMethod
  | inputs_GetMethodID_wotuner
  | inputs_GetMethodID_wtuner
  | inputs_NewIntArray (i : Nat)
  | inputs_NewStringUTF (i : Nat)
  | inputs_NewObject (i : Nat)
  | formats_FindClass
  | formats_GetMethodID
  | formats_GetFieldID
  | formats_NewObject
  | getInfo_GetObjectClass
  | getInfo_GetFieldID
  | getInfo_NewStringUTF
  | intv_FindClass
  | intv_GetMethodID
  | intv_NewObject
  deriving DecidableEq, Repr

/-- The C test `v == NULL` on a Java reference. -/
def JValue.isNull : JValue → Bool
  | .null => true
  | _ => false

/-- The JNI environment: for every call site, whether the call succeeds
(returns non-`NULL`). -/
structure JNIEnv where
  ok : Site → Bool

/-- A record of one call made by the C code. -/
inductive Call where
  | FindClass (s : Site) (name : String)
  | GetObjectClass (s : Site)
  | GetMethodID (s : Site) (cls name sig : String)
  | GetFieldID (s : Site) (name sig : String)
  | GetObjectField (s : Site)
  | lookupAddMethod (s : Site)
  | NewStringUTF (s : Site) (chars : String) (result : JValue)
  | NewIntArray (s : Site) (len : Int) (result : JValue)
  | NewObject (s : Site) (cls sig : String) (args : List JValue) (result : JValue)
  | SetObjectField (field : String) (v : JValue)
  | CallVoidMethod_add (v : JValue)
  | get_device_info
  | list_frame_intv (imf w h : Int)
  | release_device_info
  | XFREE (p : Nat)

/-- The observable Java-side state. -/
structure JState where
  name : JValue
  formats : JValue
  inputs : List JValue
  thrown : List (Excp × String)
  calls : List Call

/-- Append a call to the log. -/
def JState.log (st : JState) (c : Call) : JState :=
  { st with calls := st.calls ++ [c] }

/-- Modelled from the spec: `THROW_EXCEPTION` is a macro of `common.h`, which
is absent; it raises a Java exception of the given class with the given
message. -/
def THROW_EXCEPTION (st : JState) (c : Excp) (msg : String) : JState :=
  { st with thrown := st.thrown ++ [(c, msg)] }

/-- JNI `NewStringUTF`: a Java string with the given characters, or `NULL`. -/
def NewStringUTF (env : JNIEnv) (s : Site) (chars : String) : JValue :=
  if env.ok s then .jstring chars else .null

/-- JNI `NewIntArray`: a zero-filled `int[]` of the given length, or `NULL`
(in particular for a negative length). -/
def NewIntArray (env : JNIEnv) (s : Site) (len : Int) : JValue :=
  if env.ok s && decide (0 ≤ len) then .jintArray (List.replicate len.toNat 0) else .null

/-- JNI `SetIntArrayRegion`: copy `len` elements of `buf` into the array
from position `start`. -/
def SetIntArrayRegion (arr : JValue) (start len : Int) (buf : Nat → Int) : JValue :=
  match arr with
  | .jintArray xs =>
      .jintArray (xs.take start.toNat ++ (List.range len.toNat).map buf
        ++ xs.drop (start.toNat + len.toNat))
  | v => v

/-- JNI `NewObject`: the object built by the constructor, or `NULL`. -/
def NewObject (env : JNIEnv) (s : Site) (cls sig : String) (args : List JValue) : JValue :=
  if env.ok s then .jobject cls sig args else .null

/-- JNI `SetObjectField` on the `DeviceInfo` object, for the two fields this
file writes. -/
def SetObjectField (st : JState) (field : String) (v : JValue) : JState :=
  let st := st.log (.SetObjectField field v)
  if field = "name" then { st with name := v }
  else if field = "formats" then { st with formats := v }
  else st

/-- JNI `CallVoidMethod(list, add, obj)`: append to the `inputs` list. -/
def CallVoidMethod_add (st : JState) (obj : JValue) : JState :=
  let st := st.log (.CallVoidMethod_add obj)
  { st with inputs := st.inputs ++ [obj] }

/-! ## Integer and pointer conversions -/

/-- The cast `(jlong) x` of an unsigned value: reduction to a signed 64-bit
integer. -/
def to_jlong (u : Nat) : Int :=
  if u % 2 ^ 64 < 2 ^ 63 then ((u % 2 ^ 64 : Nat) : Int) else ((u % 2 ^ 64 : Nat) : Int) - 2 ^ 64

/-- The cast `(uintptr_t) v` of a `jlong`, for pointers of `ptr_bits` bits. -/
def to_uintptr (ptr_bits : Nat) (v : Int) : Nat :=
  (v % 2 ^ ptr_bits).toNat

/-! ## libvideo structures

`libvideo.h` is absent; the structures carry the fields this file reads,
with the types their uses show (`%d` for the `int` fields, `%lu` for the
tuner range, `%s` for names). C arrays are functions from the index. -/

/-- Modelled from the spec: `struct tuner_info` of the absent `libvideo.h`. -/
structure tuner_info where
  type : Int
  rangelow : Nat
  rangehigh : Nat
  unit : Int
  name : String
  index : Int

/-- Modelled from the spec: `struct video_input_info` of the absent
`libvideo.h`; `tuner` is a pointer that may be `NULL`. -/
structure video_input_info where
  nb_stds : Int
  supported_stds : Nat → Int
  tuner : Option tuner_info
  name : String
  index : Int

/-- Modelled from the spec: `struct device_info` of the absent `libvideo.h`.
`list_frame_intv` returns the interval type and the pointer it stores
through its last argument. -/
structure device_info where
  nb_inputs : Int
  inputs : Nat → video_input_info
  name : String
  list_frame_intv : Int → Int → Int → Int × Nat

/-- Modelled from the spec: `struct video_device` of the absent `libvideo.h`. -/
structure video_device where
  info : device_info

/-- Modelled from the spec: `struct v4l4j_device` of the absent `common.h`. -/
structure v4l4j_device where
  vdev : video_device

/-- Modelled from the spec: the part of libvideo and of memory the shim
relies on: the `v4l4j_device` a pointer refers to, whether
`get_device_info` returns non-`NULL`, and the three `FRAME_INTV_*` constants
of the absent `libvideo.h`. -/
structure Libvideo where
  deref : Nat → v4l4j_device
  get_device_info : video_device → Bool
  FRAME_INTV_UNSUPPORTED : Int
  FRAME_INTV_DISCRETE : Int
  FRAME_INTV_CONTINUOUS : Int

/-! ## The functions of `v4l4j_DeviceInfo.c` -/

/-- Embedding of `create_tuner_object` (lines 33-59), called during
iteration `i` of the inputs loop. -/
def create_tuner_object (env : JNIEnv) (i : Nat) (tuner : tuner_info) (st : JState) :
    JValue × JState :=
  let st := st.log (.FindClass (.tuner_FindClass i) "au/edu/jcu/v4l4j/TunerInfo")
  if !env.ok (.tuner_FindClass i) then
    (.null, THROW_EXCEPTION st .JNI_EXCP "Error looking up tuner class")
  else
  let st := st.log (.GetMethodID (.tuner_GetMethodID i) "au/edu/jcu/v4l4j/TunerInfo" "<init>"
    "(Ljava/lang/String;IIIJJ)V")
  if !env.ok (.tuner_GetMethodID i) then
    (.null, THROW_EXCEPTION st .JNI_EXCP "Error looking up constructor of tuner class")
  else
  let name := NewStringUTF env (.tuner_NewStringUTF i) tuner.name
  let st := st.log (.NewStringUTF (.tuner_NewStringUTF i) tuner.name name)
  let args := [name, .jint tuner.index, .jint tuner.unit, .jint tuner.type,
    .jlong (to_jlong (tuner.rangelow &&& 0xFFFFFFFF)),
    .jlong (to_jlong (tuner.rangehigh &&& 0xFFFFFFFF))]
  let result := NewObject env (.tuner_NewObject i) "au/edu/jcu/v4l4j/TunerInfo"
    "(Ljava/lang/String;IIIJJ)V" args
  let st := st.log (.NewObject (.tuner_NewObject i) "au/edu/jcu/v4l4j/TunerInfo"
    "(Ljava/lang/String;IIIJJ)V" args result)
  (result, st)

/-- The body of the loop of `create_inputs_object` (lines 100-132) for loop
index `i`. The flag is `false` when the body executes `return`, which ends
`create_inputs_object`, and `true` when the loop goes on. -/
def create_inputs_body (env : JNIEnv) (info : device_info) (i : Nat) (st : JState) :
    JState × Bool :=
  let vi := info.inputs i
  let stds := NewIntArray env (.inputs_NewIntArray i) vi.nb_stds
  let st := st.log (.NewIntArray (.inputs_NewIntArray i) vi.nb_stds stds)
  if stds.isNull then
    (THROW_EXCEPTION st .JNI_EXCP "Error creating array", false)
  else
  let stds := SetIntArrayRegion stds 0 vi.nb_stds vi.supported_stds
  let name := NewStringUTF env (.inputs_NewStringUTF i) vi.name
  let st := st.log (.NewStringUTF (.inputs_NewStringUTF i) vi.name name)
  let r : JValue × JState :=
    match (info.inputs i).tuner with
    | none =>
      let args := [name, stds, .jint vi.index]
      let obj := NewObject env (.inputs_NewObject i) "au/edu/jcu/v4l4j/InputInfo"
        "(Ljava/lang/String;[II)V" args
      (obj, st.log (.NewObject (.inputs_NewObject i) "au/edu/jcu/v4l4j/InputInfo"
        "(Ljava/lang/String;[II)V" args obj))
    | some t =>
      let tr := create_tuner_object env i t st
      let args := [name, stds, tr.1, .jint vi.index]
      let obj := NewObject env (.inputs_NewObject i) "au/edu/jcu/v4l4j/InputInfo"
        "(Ljava/lang/String;[ILau/edu/jcu/v4l4j/TunerInfo;I)V" args
      (obj, tr.2.log (.NewObject (.inputs_NewObject i) "au/edu/jcu/v4l4j/InputInfo"
        "(Ljava/lang/String;[ILau/edu/jcu/v4l4j/TunerInfo;I)V" args obj))
  if r.1.isNull then
    (THROW_EXCEPTION r.2 .JNI_EXCP "Error creating input object", false)
  else
    (CallVoidMethod_add r.2 r.1, true)

/-- The loop of `create_inputs_object` (line 99): `k` iterations remain and
the loop variable is `i`. -/
def create_inputs_loop (env : JNIEnv) (info : device_info) : Nat → Nat → JState → JState
  | 0, _, st => st
  | k + 1, i, st =>
    let r := create_inputs_body env info i st
    if r.2 then create_inputs_loop env info k (i + 1) r.1 else r.1

/-- Embedding of `create_inputs_object` (lines 61-136). -/
def create_inputs_object (env : JNIEnv) (vd : video_device) (st : JState) : JState :=
  let st := st.log (.FindClass .inputs_FindClass "au/edu/jcu/v4l4j/InputInfo")
  if !env.ok .inputs_FindClass then
    THROW_EXCEPTION st .JNI_EXCP "Error looking up InputInfo class"
  else
  let st := st.log (.GetFieldID .inputs_GetFieldID "inputs" "Ljava/util/List;")
  if !env.ok .inputs_GetFieldID then
    THROW_EXCEPTION st .JNI_EXCP "Error looking up the inputs attribute ID"
  else
  let st := st.log (.GetObjectField .inputs_GetObjectField)
  if !env.ok .inputs_GetObjectField then
    THROW_EXCEPTION st .JNI_EXCP "Error retrieving up the inputs attribute"
  else
  let st := st.log (.lookupAddMethod .inputs_lookupAddMethod)
  if !env.ok .inputs_lookupAddMethod then
    st
  else
  let st := st.log (.GetMethodID .inputs_GetMethodID_wotuner "au/edu/jcu/v4l4j/InputInfo"
    "<init>" "(Ljava/lang/String;[II)V")
  if !env.ok .inputs_GetMethodID_wotuner then
    THROW_EXCEPTION st .JNI_EXCP "Error looking up the constructor of Input  class"
  else
  let st := st.log (.GetMethodID .inputs_GetMethodID_wtuner "au/edu/jcu/v4l4j/InputInfo"
    "<init>" "(Ljava/lang/String;[ILau/edu/jcu/v4l4j/TunerInfo;I)V")
  if !env.ok .inputs_GetMethodID_wtuner then
    THROW_EXCEPTION st .JNI_EXCP "Error looking up the constructor of InputInfo class"
  else
  create_inputs_loop env vd.info vd.info.nb_inputs.toNat 0 st

/-- Embedding of `create_formats_object` (lines 138-166); `d` is the device
pointer. -/
def create_formats_object (env : JNIEnv) (d : Nat) (st : JState) : JState :=
  let st := st.log (.FindClass .formats_FindClass "au/edu/jcu/v4l4j/ImageFormatList")
  if !env.ok .formats_FindClass then
    THROW_EXCEPTION st .JNI_EXCP "Error looking up class ImageFormatList"
  else
  let st := st.log (.GetMethodID .formats_GetMethodID "au/edu/jcu/v4l4j/ImageFormatList"
    "<init>" "(J)V")
  if !env.ok .formats_GetMethodID then
    THROW_EXCEPTION st .JNI_EXCP "Error looking up the constructor of class ImageFormatList"
  else
  let st := st.log (.GetFieldID .formats_GetFieldID "formats"
    "Lau/edu/jcu/v4l4j/ImageFormatList;")
  if !env.ok .formats_GetFieldID then
    THROW_EXCEPTION st .JNI_EXCP "Error looking up the formats attribute ID"
  else
  let args := [JValue.jlong (to_jlong d)]
  let obj := NewObject env .formats_NewObject "au/edu/jcu/v4l4j/ImageFormatList" "(J)V" args
  let st := st.log (.NewObject .formats_NewObject "au/edu/jcu/v4l4j/ImageFormatList" "(J)V"
    args obj)
  if obj.isNull then
    THROW_EXCEPTION st .JNI_EXCP "Error creating the format list"
  else
  SetObjectField st "formats" obj

/-- Embedding of `Java_au_edu_jcu_v4l4j_DeviceInfo_getInfo` (lines 171-210). -/
def Java_au_edu_jcu_v4l4j_DeviceInfo_getInfo (env : JNIEnv) (lib : Libvideo) (ptr_bits : Nat)
    (v4l4j_device : Int) (st : JState) : JState :=
  let d := to_uintptr ptr_bits v4l4j_device
  let vd := (lib.deref d).vdev
  let st := st.log (.GetObjectClass .getInfo_GetObjectClass)
  if !env.ok .getInfo_GetObjectClass then
    THROW_EXCEPTION st .JNI_EXCP "Error looking up class DeviceInfo"
  else
  let st := st.log (.GetFieldID .getInfo_GetFieldID "name" "Ljava/lang/String;")
  if !env.ok .getInfo_GetFieldID then
    THROW_EXCEPTION st .JNI_EXCP "Error looking up the name attribute"
  else
  let st := st.log .get_device_info
  if lib.get_device_info vd then
    let name := NewStringUTF env .getInfo_NewStringUTF vd.info.name
    let st := st.log (.NewStringUTF .getInfo_NewStringUTF vd.info.name name)
    let st := SetObjectField st "name" name
    let st := create_inputs_object env vd st
    create_formats_object env d st
  else
    THROW_EXCEPTION st .GENERIC_EXCP "Error getting information from video device"

/-- Embedding of `Java_au_edu_jcu_v4l4j_DeviceInfo_doListIntervals`
(lines 212-260): the returned reference and the final state. `sw` is the
outcome of the `switch`: the object and state of a `case` that ends in
`break`, or nothing for the `default` case, which returns. -/
def Java_au_edu_jcu_v4l4j_DeviceInfo_doListIntervals (env : JNIEnv) (lib : Libvideo)
    (ptr_bits : Nat) (o : Int) (imf w h : Int) (st : JState) : JValue × JState :=
  let d := lib.deref (to_uintptr ptr_bits o)
  let st := st.log (.FindClass .intv_FindClass "au/edu/jcu/v4l4j/FrameInterval")
  if !env.ok .intv_FindClass then
    (.null, THROW_EXCEPTION st .JNI_EXCP "Error looking up class FrameInterval")
  else
  let st := st.log (.GetMethodID .intv_GetMethodID "au/edu/jcu/v4l4j/FrameInterval"
    "<init>" "(IJ)V")
  if !env.ok .intv_GetMethodID then
    (.null, THROW_EXCEPTION st .JNI_EXCP
      "Error looking up the constructor of class FrameInterval")
  else
  let r := d.vdev.info.list_frame_intv imf w h
  let type := r.1
  let p := r.2
  let st := st.log (.list_frame_intv imf w h)
  let sw : Option (JValue × JState) :=
    if type = lib.FRAME_INTV_UNSUPPORTED then
      let frame_intv := NewObject env .intv_NewObject "au/edu/jcu/v4l4j/FrameInterval" "(IJ)V"
        [.jint 3, .jlong (to_jlong p)]
      some (frame_intv, st.log (.NewObject .intv_NewObject "au/edu/jcu/v4l4j/FrameInterval"
        "(IJ)V" [.jint 3, .jlong (to_jlong p)] frame_intv))
    else if type = lib.FRAME_INTV_DISCRETE then
      let frame_intv := NewObject env .intv_NewObject "au/edu/jcu/v4l4j/FrameInterval" "(IJ)V"
        [.jint 4, .jlong (to_jlong p)]
      some (frame_intv, (st.log (.NewObject .intv_NewObject "au/edu/jcu/v4l4j/FrameInterval"
        "(IJ)V" [.jint 4, .jlong (to_jlong p)] frame_intv)).log (.XFREE p))
    else if type = lib.FRAME_INTV_CONTINUOUS then
      let frame_intv := NewObject env .intv_NewObject "au/edu/jcu/v4l4j/FrameInterval" "(IJ)V"
        [.jint 5, .jlong (to_jlong p)]
      some (frame_intv, (st.log (.NewObject .intv_NewObject "au/edu/jcu/v4l4j/FrameInterval"
        "(IJ)V" [.jint 5, .jlong (to_jlong p)] frame_intv)).log (.XFREE p))
    else
      none
  match sw with
  | none => (.null, THROW_EXCEPTION st .JNI_EXCP "Error creating the FrameInterval object")
  | some (frame_intv, st) =>
    if frame_intv.isNull then
      (frame_intv, THROW_EXCEPTION st .JNI_EXCP "Error creating FrameInterval object")
    else
      (frame_intv, st)

/-- The `TunerInfo` object for a tuner: built by the
`(String,int,int,int,long,long)` constructor from name, index, unit, type
and the two range bounds reduced to 32 bits. -/
def TunerInfo_object (t : tuner_info) : JValue :=
  .jobject "au/edu/jcu/v4l4j/TunerInfo" "(Ljava/lang/String;IIIJJ)V"
    [.jstring t.name, .jint t.index, .jint t.unit, .jint t.type,
     .jlong ((t.rangelow % 2 ^ 32 : Nat) : Int), .jlong ((t.rangehigh % 2 ^ 32 : Nat) : Int)]

/-- The elements of the standards array of an input: `supported_stds[k]`
for `k < nb_stds`. -/
def stds_elems (vi : video_input_info) : List Int :=
  (List.range vi.nb_stds.toNat).map vi.supported_stds

/-- The `InputInfo` object for an input: the constructor with a `TunerInfo`
exactly when the input has a tuner, the three-argument one otherwise. -/
def InputInfo_object (vi : video_input_info) : JValue :=
  match vi.tuner with
  | none =>
    .jobject "au/edu/jcu/v4l4j/InputInfo" "(Ljava/lang/String;[II)V"
      [.jstring vi.name, .jintArray (stds_elems vi), .jint vi.index]
  | some t =>
    .jobject "au/edu/jcu/v4l4j/InputInfo" "(Ljava/lang/String;[ILau/edu/jcu/v4l4j/TunerInfo;I)V"
      [.jstring vi.name, .jintArray (stds_elems vi), TunerInfo_object t, .jint vi.index]

/-- Every lookup of `create_inputs_object` before its loop succeeds. -/
def lookups_ok (env : JNIEnv) : Prop :=
  env.ok .inputs_FindClass = true ∧ env.ok .inputs_GetFieldID = true
    ∧ env.ok .inputs_GetObjectField = true ∧ env.ok .inputs_lookupAddMethod = true
    ∧ env.ok .inputs_GetMethodID_wotuner = true ∧ env.ok .inputs_GetMethodID_wtuner = true

/-- Every step of `create_tuner_object` in iteration `i` succeeds, when the
input has a tuner. -/
def tuner_steps_ok (env : JNIEnv) (i : Nat) : Option tuner_info → Prop
  | none => True
  | some _ =>
    env.ok (.tuner_FindClass i) = true ∧ env.ok (.tuner_GetMethodID i) = true
      ∧ env.ok (.tuner_NewStringUTF i) = true ∧ env.ok (.tuner_NewObject i) = true

/-- The standards array of input `i` is created. -/
def array_ok (env : JNIEnv) (info : device_info) (i : Nat) : Prop :=
  env.ok (.inputs_NewIntArray i) = true ∧ 0 ≤ (info.inputs i).nb_stds

/-- Every step of iteration `i` before the creation of the `InputInfo`
object succeeds. -/
def steps_before_object_ok (env : JNIEnv) (info : device_info) (i : Nat) : Prop :=
  array_ok env info i ∧ env.ok (.inputs_NewStringUTF i) = true
    ∧ tuner_steps_ok env i (info.inputs i).tuner

/-- Every step of iteration `i` succeeds. -/
def iteration_ok (env : JNIEnv) (info : device_info) (i : Nat) : Prop :=
  steps_before_object_ok env info i ∧ env.ok (.inputs_NewObject i) = true

/-- The input index of a call that created an `InputInfo` object. -/
def created_input : Call → Option Nat
  | .NewObject (.inputs_NewObject j) _ _ _ r => if r.isNull then none else some j
  | _ => none

/-- The inputs for which an `InputInfo` object was created, in call order. -/
def created_inputs (calls : List Call) : List Nat :=
  calls.filterMap created_input

/-- The step from `st` to `st2` leaves the `name` and `formats` fields alone
and only appends to the call log. -/
def Frame (st st2 : JState) : Prop :=
  st2.name = st.name ∧ st2.formats = st.formats ∧ ∃ new, st2.calls = st.calls ++ new

/-- An environment in which every JNI call succeeds. -/
def env_all_ok : JNIEnv := ⟨fun _ => true⟩

/-- An environment in which only the lookup of the `InputInfo` class fails. -/
def env_no_InputInfo : JNIEnv :=
  ⟨fun s => match s with
    | .inputs_FindClass => false
    | _ => true⟩

/-- An environment in which only the creation of the `InputInfo` object of
input 1 fails. -/
def env_fail_second : JNIEnv :=
  ⟨fun s => match s with
    | .inputs_NewObject 1 => false
    | _ => true⟩

/-- A fresh Java state. -/
def st_empty : JState := ⟨.null, .null, [], [], []⟩

/-- A tuner whose lower bound has bit 31 set and whose upper bound exceeds
32 bits. -/
def tuner_example : tuner_info :=
  { type := 2, rangelow := 2147483648, rangehigh := 8589934591, unit := 1,
    name := "Television", index := 0 }

/-- Two inputs: a tuner input with two standards, and a camera input with
one. -/
def inputs_example (i : Nat) : video_input_info :=
  match i with
  | 0 => { nb_stds := 2, supported_stds := fun k => if k = 0 then 1 else 3,
           tuner := some tuner_example, name := "Television", index := 0 }
  | _ => { nb_stds := 1, supported_stds := fun _ => 2,
           tuner := none, name := "Composite", index := 1 }

/-- A device with the two example inputs; its frame intervals are discrete
and listed at address 4096. -/
def info_example : device_info :=
  { nb_inputs := 2, inputs := inputs_example, name := "Webcam",
    list_frame_intv := fun _ _ _ => (1, 4096) }

/-- The example device. -/
def vd_example : video_device := ⟨info_example⟩

/-- A library that finds the example device behind every pointer. -/
def lib_example : Libvideo :=
  { deref := fun _ => ⟨vd_example⟩, get_device_info := fun _ => true,
    FRAME_INTV_UNSUPPORTED := 0, FRAME_INTV_DISCRETE := 1, FRAME_INTV_CONTINUOUS := 2 }

/-- A library whose `get_device_info` fails. -/
def lib_no_info : Libvideo :=
  { deref := fun _ => ⟨vd_example⟩, get_device_info := fun _ => false,
    FRAME_INTV_UNSUPPORTED := 0, FRAME_INTV_DISCRETE := 1, FRAME_INTV_CONTINUOUS := 2 }

/-! ## Conversion lemmas -/

theorem to_jlong_of_lt (u : Nat) (h : u < 2 ^ 63) : to_jlong u = (u : Int) := by
  have h1 : u % 2 ^ 64 = u := Nat.mod_eq_of_lt (by omega)
  unfold to_jlong
  rw [h1, if_pos h]

theorem to_jlong_land_mask (x : Nat) :
    to_jlong (x &&& 0xFFFFFFFF) = ((x % 2 ^ 32 : Nat) : Int) := by
  have h : x &&& 0xFFFFFFFF = x % 2 ^ 32 := Nat.and_pow_two_sub_one_eq_mod x 32
  rw [h]
  apply to_jlong_of_lt
  have := Nat.mod_lt x (show 0 < 2 ^ 32 by norm_num)
  omega

theorem to_jlong_to_uintptr_64 (v : Int) (hlo : -2 ^ 63 ≤ v) (hhi : v < 2 ^ 63) :
    to_jlong (to_uintptr 64 v) = v := by
  unfold to_jlong to_uintptr
  have hpos : (0 : Int) ≤ v % 2 ^ 64 := Int.emod_nonneg _ (by norm_num)
  have hlt : v % 2 ^ 64 < 2 ^ 64 := Int.emod_lt_of_pos _ (by norm_num)
  have hcast : (((v % 2 ^ 64).toNat : Nat) : Int) = v % 2 ^ 64 := Int.toNat_of_nonneg hpos
  have hm : (v % 2 ^ 64).toNat % 2 ^ 64 = (v % 2 ^ 64).toNat := Nat.mod_eq_of_lt (by omega)
  rw [hm]
  by_cases hv : 0 ≤ v
  · have : v % 2 ^ 64 = v := Int.emod_eq_of_lt hv (by omega)
    rw [if_pos (by omega), hcast, this]
  · have : v % 2 ^ 64 = v + 2 ^ 64 := by
      rw [← Int.add_emod_self]
      exact Int.emod_eq_of_lt (by omega) (by omega)
    rw [if_neg (by omega), hcast, this]
    omega

/-- Claim C6: when the `TunerInfo` class and its
`(String,int,int,int,long,long)` constructor are found, `create_tuner_object`
calls the constructor with the arguments (name, index, unit, type, low, high)
in this order, where low is `rangelow mod 2^32` and high is
`rangehigh mod 2^32`; both lie in `[0, 2^32)`, so neither is negative. -/
theorem create_tuner_object_ctor_args (env : JNIEnv) (i : Nat) (tuner : tuner_info)
    (st : JState)
    (hclass : env.ok (.tuner_FindClass i) = true)
    (hctor : env.ok (.tuner_GetMethodID i) = true) :
    (create_tuner_object env i tuner st).2.calls = st.calls ++
      [ .FindClass (.tuner_FindClass i) "au/edu/jcu/v4l4j/TunerInfo",
        .GetMethodID (.tuner_GetMethodID i) "au/edu/jcu/v4l4j/TunerInfo" "<init>"
          "(Ljava/lang/String;IIIJJ)V",
        .NewStringUTF (.tuner_NewStringUTF i) tuner.name
          (NewStringUTF env (.tuner_NewStringUTF i) tuner.name),
        .NewObject (.tuner_NewObject i) "au/edu/jcu/v4l4j/TunerInfo"
          "(Ljava/lang/String;IIIJJ)V"
          [ NewStringUTF env (.tuner_NewStringUTF i) tuner.name,
            .jint tuner.index, .jint tuner.unit, .jint tuner.type,
            .jlong ((tuner.rangelow % 2 ^ 32 : Nat) : Int),
            .jlong ((tuner.rangehigh % 2 ^ 32 : Nat) : Int) ]
          (create_tuner_object env i tuner st).1 ]
    ∧ (0 ≤ ((tuner.rangelow % 2 ^ 32 : Nat) : Int)
        ∧ ((tuner.rangelow % 2 ^ 32 : Nat) : Int) < 2 ^ 32)
    ∧ (0 ≤ ((tuner.rangehigh % 2 ^ 32 : Nat) : Int)
        ∧ ((tuner.rangehigh % 2 ^ 32 : Nat) : Int) < 2 ^ 32) := by
  have hl := Nat.mod_lt tuner.rangelow (show 0 < 2 ^ 32 by norm_num)
  have hh := Nat.mod_lt tuner.rangehigh (show 0 < 2 ^ 32 by norm_num)
  refine ⟨?_, ⟨by omega, by omega⟩, ⟨by omega, by omega⟩⟩
  simp [create_tuner_object, hclass, hctor, JState.log, to_jlong_land_mask]

/-- Claim C5: if the class and the `name` field are found and
`get_device_info` returns `NULL`, `getInfo` raises `GENERIC_EXCP` with the
message "Error getting information from video device", leaves the `name` and
`formats` fields and the `inputs` list as they were, and makes no call after
`get_device_info`. If the class or the `name` field lookup fails, it raises
`JNI_EXCP` and `get_device_info` is not among the calls made. -/
theorem getInfo_failure_paths (env : JNIEnv) (lib : Libvideo) (ptr_bits : Nat)
    (v4l4j_device : Int) (st : JState) :
    (env.ok .getInfo_GetObjectClass = true → env.ok .getInfo_GetFieldID = true →
      lib.get_device_info (lib.deref (to_uintptr ptr_bits v4l4j_device)).vdev = false →
        (Java_au_edu_jcu_v4l4j_DeviceInfo_getInfo env lib ptr_bits v4l4j_device st).thrown
            = st.thrown ++
              [(Excp.GENERIC_EXCP, "Error getting information from video device")]
        ∧ (Java_au_edu_jcu_v4l4j_DeviceInfo_getInfo env lib ptr_bits v4l4j_device st).name
            = st.name
        ∧ (Java_au_edu_jcu_v4l4j_DeviceInfo_getInfo env lib ptr_bits v4l4j_device st).formats
            = st.formats
        ∧ (Java_au_edu_jcu_v4l4j_DeviceInfo_getInfo env lib ptr_bits v4l4j_device st).inputs
            = st.inputs
        ∧ (Java_au_edu_jcu_v4l4j_DeviceInfo_getInfo env lib ptr_bits v4l4j_device st).calls
            = st.calls ++
              [ .GetObjectClass .getInfo_GetObjectClass,
                .GetFieldID .getInfo_GetFieldID "name" "Ljava/lang/String;",
                .get_device_info ])
    ∧ ((env.ok .getInfo_GetObjectClass = false ∨ env.ok .getInfo_GetFieldID = false) →
        (∃ msg,
          (Java_au_edu_jcu_v4l4j_DeviceInfo_getInfo env lib ptr_bits v4l4j_device st).thrown
            = st.thrown ++ [(Excp.JNI_EXCP, msg)])
        ∧ (∃ new,
          (Java_au_edu_jcu_v4l4j_DeviceInfo_getInfo env lib ptr_bits v4l4j_device st).calls
            = st.calls ++ new ∧ Call.get_device_info ∉ new)) := by
  constructor
  · intro h1 h2 h3
    simp [Java_au_edu_jcu_v4l4j_DeviceInfo_getInfo, h1, h2, h3, JState.log, THROW_EXCEPTION]
  · intro h
    by_cases h1 : env.ok .getInfo_GetObjectClass = true
    · have h2 : env.ok .getInfo_GetFieldID = false := by
        rcases h with h | h
        · rw [h1] at h; cases h
        · exact h
      refine ⟨⟨"Error looking up the name attribute", ?_⟩,
        ⟨[ .GetObjectClass .getInfo_GetObjectClass,
           .GetFieldID .getInfo_GetFieldID "name" "Ljava/lang/String;"], ?_, ?_⟩⟩
      · simp [Java_au_edu_jcu_v4l4j_DeviceInfo_getInfo, h1, h2, JState.log, THROW_EXCEPTION]
      · simp [Java_au_edu_jcu_v4l4j_DeviceInfo_getInfo, h1, h2, JState.log, THROW_EXCEPTION]
      · simp
    · have h1 : env.ok .getInfo_GetObjectClass = false := by simpa using h1
      refine ⟨⟨"Error looking up class DeviceInfo", ?_⟩,
        ⟨[ .GetObjectClass .getInfo_GetObjectClass], ?_, ?_⟩⟩
      · simp [Java_au_edu_jcu_v4l4j_DeviceInfo_getInfo, h1, JState.log, THROW_EXCEPTION]
      · simp [Java_au_edu_jcu_v4l4j_DeviceInfo_getInfo, h1, JState.log, THROW_EXCEPTION]
      · simp

/-- Claim C3: let `list_frame_intv` return `type` and store the pointer `p`,
the three `FRAME_INTV_*` constants being distinct (they label the cases of
one `switch`). When the `FrameInterval` class and its `(IJ)V` constructor are
found, the constructor is called with first argument 3 for
`FRAME_INTV_UNSUPPORTED`, 4 for `FRAME_INTV_DISCRETE` and 5 for
`FRAME_INTV_CONTINUOUS`, and second argument `p` as a `jlong`; for any other
`type` no constructor call is made, `JNI_EXCP` is raised and the result is
`NULL`. On every path the result is `NULL` if and only if an exception was
raised. -/
theorem doListIntervals_result (env : JNIEnv) (lib : Libvideo) (ptr_bits : Nat)
    (o imf w h : Int) (st : JState) (type : Int) (p : Nat)
    (hintv : (lib.deref (to_uintptr ptr_bits o)).vdev.info.list_frame_intv imf w h = (type, p))
    (hdistinct : lib.FRAME_INTV_UNSUPPORTED ≠ lib.FRAME_INTV_DISCRETE
      ∧ lib.FRAME_INTV_UNSUPPORTED ≠ lib.FRAME_INTV_CONTINUOUS
      ∧ lib.FRAME_INTV_DISCRETE ≠ lib.FRAME_INTV_CONTINUOUS) :
    (env.ok .intv_FindClass = true → env.ok .intv_GetMethodID = true →
      (type = lib.FRAME_INTV_UNSUPPORTED →
        (Java_au_edu_jcu_v4l4j_DeviceInfo_doListIntervals env lib ptr_bits o imf w h st).1
          = NewObject env .intv_NewObject "au/edu/jcu/v4l4j/FrameInterval" "(IJ)V"
              [.jint 3, .jlong (to_jlong p)]
        ∧ (Java_au_edu_jcu_v4l4j_DeviceInfo_doListIntervals env lib ptr_bits o imf w h st).2.calls
          = st.calls ++
            [ .FindClass .intv_FindClass "au/edu/jcu/v4l4j/FrameInterval",
              .GetMethodID .intv_GetMethodID "au/edu/jcu/v4l4j/FrameInterval" "<init>" "(IJ)V",
              .list_frame_intv imf w h,
              .NewObject .intv_NewObject "au/edu/jcu/v4l4j/FrameInterval" "(IJ)V"
                [.jint 3, .jlong (to_jlong p)]
                (NewObject env .intv_NewObject "au/edu/jcu/v4l4j/FrameInterval" "(IJ)V"
                  [.jint 3, .jlong (to_jlong p)]) ])
      ∧ (type = lib.FRAME_INTV_DISCRETE →
        (Java_au_edu_jcu_v4l4j_DeviceInfo_doListIntervals env lib ptr_bits o imf w h st).1
          = NewObject env .intv_NewObject "au/edu/jcu/v4l4j/FrameInterval" "(IJ)V"
              [.jint 4, .jlong (to_jlong p)]
        ∧ (Java_au_edu_jcu_v4l4j_DeviceInfo_doListIntervals env lib ptr_bits o imf w h st).2.calls
          = st.calls ++
            [ .FindClass .intv_FindClass "au/edu/jcu/v4l4j/FrameInterval",
              .GetMethodID .intv_GetMethodID "au/edu/jcu/v4l4j/FrameInterval" "<init>" "(IJ)V",
              .list_frame_intv imf w h,
              .NewObject .intv_NewObject "au/edu/jcu/v4l4j/FrameInterval" "(IJ)V"
                [.jint 4, .jlong (to_jlong p)]
                (NewObject env .intv_NewObject "au/edu/jcu/v4l4j/FrameInterval" "(IJ)V"
                  [.jint 4, .jlong (to_jlong p)]),
              .XFREE p ])
      ∧ (type = lib.FRAME_INTV_CONTINUOUS →
        (Java_au_edu_jcu_v4l4j_DeviceInfo_doListIntervals env lib ptr_bits o imf w h st).1
          = NewObject env .intv_NewObject "au/edu/jcu/v4l4j/FrameInterval" "(IJ)V"
              [.jint 5, .jlong (to_jlong p)]
        ∧ (Java_au_edu_jcu_v4l4j_DeviceInfo_doListIntervals env lib ptr_bits o imf w h st).2.calls
          = st.calls ++
            [ .FindClass .intv_FindClass "au/edu/jcu/v4l4j/FrameInterval",
              .GetMethodID .intv_GetMethodID "au/edu/jcu/v4l4j/FrameInterval" "<init>" "(IJ)V",
              .list_frame_intv imf w h,
              .NewObject .intv_NewObject "au/edu/jcu/v4l4j/FrameInterval" "(IJ)V"
                [.jint 5, .jlong (to_jlong p)]
                (NewObject env .intv_NewObject "au/edu/jcu/v4l4j/FrameInterval" "(IJ)V"
                  [.jint 5, .jlong (to_jlong p)]),
              .XFREE p ])
      ∧ (type ≠ lib.FRAME_INTV_UNSUPPORTED → type ≠ lib.FRAME_INTV_DISCRETE →
          type ≠ lib.FRAME_INTV_CONTINUOUS →
        (Java_au_edu_jcu_v4l4j_DeviceInfo_doListIntervals env lib ptr_bits o imf w h st).1
          = .null
        ∧ (Java_au_edu_jcu_v4l4j_DeviceInfo_doListIntervals env lib ptr_bits o imf w h st).2.thrown
          = st.thrown ++ [(Excp.JNI_EXCP, "Error creating the FrameInterval object")]
        ∧ (Java_au_edu_jcu_v4l4j_DeviceInfo_doListIntervals env lib ptr_bits o imf w h st).2.calls
          = st.calls ++
            [ .FindClass .intv_FindClass "au/edu/jcu/v4l4j/FrameInterval",
              .GetMethodID .intv_GetMethodID "au/edu/jcu/v4l4j/FrameInterval" "<init>" "(IJ)V",
              .list_frame_intv imf w h ]))
    ∧ ((Java_au_edu_jcu_v4l4j_DeviceInfo_doListIntervals env lib ptr_bits o imf w h st).1.isNull
          = true
        ↔ (Java_au_edu_jcu_v4l4j_DeviceInfo_doListIntervals env lib ptr_bits o imf w h st).2.thrown
          ≠ st.thrown) := by
  obtain ⟨hUD, hUC, hDC⟩ := hdistinct
  constructor
  · intro hc hm
    refine ⟨?_, ?_, ?_, ?_⟩
    · intro ht
      subst ht
      cases hn : env.ok .intv_NewObject <;>
        simp [Java_au_edu_jcu_v4l4j_DeviceInfo_doListIntervals, hc, hm, hintv, hn, JState.log,
          THROW_EXCEPTION, NewObject, JValue.isNull]
    · intro ht
      subst ht
      cases hn : env.ok .intv_NewObject <;>
        simp [Java_au_edu_jcu_v4l4j_DeviceInfo_doListIntervals, hc, hm, hintv, hn, JState.log,
          THROW_EXCEPTION, NewObject, JValue.isNull, Ne.symm hUD]
    · intro ht
      subst ht
      cases hn : env.ok .intv_NewObject <;>
        simp [Java_au_edu_jcu_v4l4j_DeviceInfo_doListIntervals, hc, hm, hintv, hn, JState.log,
          THROW_EXCEPTION, NewObject, JValue.isNull, Ne.symm hUC, Ne.symm hDC]
    · intro h1 h2 h3
      simp [Java_au_edu_jcu_v4l4j_DeviceInfo_doListIntervals, hc, hm, hintv, JState.log,
        THROW_EXCEPTION, h1, h2, h3]
  · cases hc : env.ok .intv_FindClass
    · simp [Java_au_edu_jcu_v4l4j_DeviceInfo_doListIntervals, hc, JState.log,
        THROW_EXCEPTION, JValue.isNull]
    · cases hm : env.ok .intv_GetMethodID
      · simp [Java_au_edu_jcu_v4l4j_DeviceInfo_doListIntervals, hc, hm, JState.log,
          THROW_EXCEPTION, JValue.isNull]
      · by_cases h1 : type = lib.FRAME_INTV_UNSUPPORTED
        · subst h1
          cases hn : env.ok .intv_NewObject <;>
            simp [Java_au_edu_jcu_v4l4j_DeviceInfo_doListIntervals, hc, hm, hintv, hn,
              JState.log, THROW_EXCEPTION, NewObject, JValue.isNull]
        · by_cases h2 : type = lib.FRAME_INTV_DISCRETE
          · subst h2
            cases hn : env.ok .intv_NewObject <;>
              simp [Java_au_edu_jcu_v4l4j_DeviceInfo_doListIntervals, hc, hm, hintv, hn,
                JState.log, THROW_EXCEPTION, NewObject, JValue.isNull, Ne.symm hUD]
          · by_cases h3 : type = lib.FRAME_INTV_CONTINUOUS
            · subst h3
              cases hn : env.ok .intv_NewObject <;>
                simp [Java_au_edu_jcu_v4l4j_DeviceInfo_doListIntervals, hc, hm, hintv, hn,
                  JState.log, THROW_EXCEPTION, NewObject, JValue.isNull, Ne.symm hUC,
                  Ne.symm hDC]
            · simp [Java_au_edu_jcu_v4l4j_DeviceInfo_doListIntervals, hc, hm, hintv,
                JState.log, THROW_EXCEPTION, JValue.isNull, h1, h2, h3]

/-! ## The inputs loop -/

theorem isNull_null : JValue.null.isNull = true := rfl

theorem isNull_jobject (cls sig : String) (args : List JValue) :
    (JValue.jobject cls sig args).isNull = false := rfl

theorem isNull_jintArray (xs : List Int) : (JValue.jintArray xs).isNull = false := rfl

theorem SetIntArrayRegion_NewIntArray (env : JNIEnv) (info : device_info) (i : Nat)
    (h : array_ok env info i) :
    SetIntArrayRegion (NewIntArray env (.inputs_NewIntArray i) (info.inputs i).nb_stds) 0
      (info.inputs i).nb_stds (info.inputs i).supported_stds
      = .jintArray (stds_elems (info.inputs i)) := by
  obtain ⟨h1, h2⟩ := h
  simp [NewIntArray, h1, h2, SetIntArrayRegion, stds_elems]

theorem create_tuner_object_ok (env : JNIEnv) (i : Nat) (t : tuner_info) (st : JState)
    (h : tuner_steps_ok env i (some t)) :
    (create_tuner_object env i t st).1 = TunerInfo_object t
    ∧ (create_tuner_object env i t st).2.inputs = st.inputs
    ∧ (create_tuner_object env i t st).2.thrown = st.thrown
    ∧ created_inputs (create_tuner_object env i t st).2.calls = created_inputs st.calls := by
  obtain ⟨h1, h2, h3, h4⟩ := h
  simp [create_tuner_object, h1, h2, h3, h4, JState.log, NewObject, NewStringUTF,
    TunerInfo_object, to_jlong_land_mask, created_inputs, created_input]

/-- An iteration in which every step succeeds appends the `InputInfo` object
of input `i` and goes on. -/
theorem create_inputs_body_ok (env : JNIEnv) (info : device_info) (i : Nat) (st : JState)
    (h : iteration_ok env info i) :
    (create_inputs_body env info i st).2 = true
    ∧ (create_inputs_body env info i st).1.inputs
        = st.inputs ++ [InputInfo_object (info.inputs i)]
    ∧ (create_inputs_body env info i st).1.thrown = st.thrown
    ∧ created_inputs (create_inputs_body env info i st).1.calls
        = created_inputs st.calls ++ [i] := by
  obtain ⟨⟨ha, hs, ht⟩, ho⟩ := h
  have harr := SetIntArrayRegion_NewIntArray env info i ha
  have hnn : (NewIntArray env (.inputs_NewIntArray i) (info.inputs i).nb_stds).isNull = false := by
    simp [NewIntArray, ha.1, ha.2, isNull_jintArray]
  cases htun : (info.inputs i).tuner with
  | none =>
    simp [create_inputs_body, hnn, htun, harr, NewObject, ho, CallVoidMethod_add, isNull_jobject,
      JState.log, InputInfo_object, NewStringUTF, hs, created_inputs, created_input]
  | some t =>
    rw [htun] at ht
    obtain ⟨t1, t2, t3, t4⟩ := create_tuner_object_ok env i t
      ((st.log (.NewIntArray (.inputs_NewIntArray i) (info.inputs i).nb_stds
          (NewIntArray env (.inputs_NewIntArray i) (info.inputs i).nb_stds))).log
        (.NewStringUTF (.inputs_NewStringUTF i) (info.inputs i).name
          (NewStringUTF env (.inputs_NewStringUTF i) (info.inputs i).name))) ht
    simp [JState.log, NewStringUTF, hs, created_inputs, created_input] at t1 t2 t3 t4
    simp [create_inputs_body, hnn, htun, harr, NewObject, ho, CallVoidMethod_add, isNull_jobject,
      JState.log, InputInfo_object, NewStringUTF, hs, created_inputs, created_input,
      t1, t2, t3, t4]

/-- An iteration whose standards array cannot be created raises `JNI_EXCP`
and returns. -/
theorem create_inputs_body_array_fail (env : JNIEnv) (info : device_info) (i : Nat)
    (st : JState) (h : ¬ array_ok env info i) :
    (create_inputs_body env info i st).2 = false
    ∧ (create_inputs_body env info i st).1.inputs = st.inputs
    ∧ (create_inputs_body env info i st).1.thrown
        = st.thrown ++ [(Excp.JNI_EXCP, "Error creating array")]
    ∧ created_inputs (create_inputs_body env info i st).1.calls = created_inputs st.calls := by
  have hn : NewIntArray env (.inputs_NewIntArray i) (info.inputs i).nb_stds = .null := by
    unfold array_ok at h
    unfold NewIntArray
    by_cases h1 : env.ok (.inputs_NewIntArray i) = true
    · have h2 : ¬ (0 ≤ (info.inputs i).nb_stds) := fun h2 => h ⟨h1, h2⟩
      simp [h1, h2]
    · simp [h1]
  simp [create_inputs_body, hn, THROW_EXCEPTION, JState.log, created_inputs, created_input,
    isNull_null]

/-- An iteration whose `InputInfo` object cannot be created, every earlier
step of the iteration having succeeded, raises `JNI_EXCP` and returns. -/
theorem create_inputs_body_object_fail (env : JNIEnv) (info : device_info) (i : Nat)
    (st : JState) (h : steps_before_object_ok env info i)
    (ho : env.ok (.inputs_NewObject i) = false) :
    (create_inputs_body env info i st).2 = false
    ∧ (create_inputs_body env info i st).1.inputs = st.inputs
    ∧ (create_inputs_body env info i st).1.thrown
        = st.thrown ++ [(Excp.JNI_EXCP, "Error creating input object")]
    ∧ created_inputs (create_inputs_body env info i st).1.calls = created_inputs st.calls := by
  obtain ⟨ha, hs, ht⟩ := h
  have hnn : (NewIntArray env (.inputs_NewIntArray i) (info.inputs i).nb_stds).isNull = false := by
    simp [NewIntArray, ha.1, ha.2, isNull_jintArray]
  cases htun : (info.inputs i).tuner with
  | none =>
    simp [create_inputs_body, hnn, htun, NewObject, ho, THROW_EXCEPTION, isNull_null,
      JState.log, created_inputs, created_input]
  | some t =>
    rw [htun] at ht
    obtain ⟨_, t2, t3, t4⟩ := create_tuner_object_ok env i t
      ((st.log (.NewIntArray (.inputs_NewIntArray i) (info.inputs i).nb_stds
          (NewIntArray env (.inputs_NewIntArray i) (info.inputs i).nb_stds))).log
        (.NewStringUTF (.inputs_NewStringUTF i) (info.inputs i).name
          (NewStringUTF env (.inputs_NewStringUTF i) (info.inputs i).name))) ht
    simp [JState.log, NewStringUTF, hs, created_inputs, created_input] at t2 t3 t4
    simp [create_inputs_body, hnn, htun, NewObject, ho, THROW_EXCEPTION, isNull_null,
      JState.log, NewStringUTF, hs, created_inputs, created_input, t2, t3, t4]

/-- The loop when every remaining iteration succeeds. -/
theorem create_inputs_loop_ok (env : JNIEnv) (info : device_info) :
    ∀ (k i : Nat) (st : JState),
      (∀ j, i ≤ j → j < i + k → iteration_ok env info j) →
      (create_inputs_loop env info k i st).inputs
          = st.inputs ++ (List.range' i k).map (fun j => InputInfo_object (info.inputs j))
      ∧ (create_inputs_loop env info k i st).thrown = st.thrown
      ∧ created_inputs (create_inputs_loop env info k i st).calls
          = created_inputs st.calls ++ List.range' i k := by
  intro k
  induction k with
  | zero => intro i st _; simp [create_inputs_loop]
  | succ k ih =>
    intro i st h
    obtain ⟨b1, b2, b3, b4⟩ := create_inputs_body_ok env info i st (h i le_rfl (by omega))
    obtain ⟨r1, r2, r3⟩ := ih (i + 1) (create_inputs_body env info i st).1
      (fun j hj1 hj2 => h j (by omega) (by omega))
    simp only [create_inputs_loop, b1, if_true]
    rw [r1, r2, r3, b2, b3, b4]
    simp [List.range'_succ]

/-- The loop when iteration `i + m` is the first one that fails, at its
array or at its `InputInfo` object. -/
theorem create_inputs_loop_fail (env : JNIEnv) (info : device_info) :
    ∀ (m k i : Nat) (st : JState), m < k →
      (∀ j, i ≤ j → j < i + m → iteration_ok env info j) →
      (¬ array_ok env info (i + m)
        ∨ (steps_before_object_ok env info (i + m)
            ∧ env.ok (.inputs_NewObject (i + m)) = false)) →
      (create_inputs_loop env info k i st).inputs
          = st.inputs ++ (List.range' i m).map (fun j => InputInfo_object (info.inputs j))
      ∧ (∃ msg, (create_inputs_loop env info k i st).thrown
          = st.thrown ++ [(Excp.JNI_EXCP, msg)])
      ∧ created_inputs (create_inputs_loop env info k i st).calls
          = created_inputs st.calls ++ List.range' i m := by
  intro m
  induction m with
  | zero =>
    intro k i st hk _ hfail
    obtain ⟨k, rfl⟩ : ∃ k', k = k' + 1 := ⟨k - 1, by omega⟩
    rcases hfail with hf | ⟨hf, ho⟩
    · obtain ⟨b1, b2, b3, b4⟩ := create_inputs_body_array_fail env info i st hf
      simp only [create_inputs_loop, b1]
      simp [b2, b3, b4]
    · obtain ⟨b1, b2, b3, b4⟩ := create_inputs_body_object_fail env info i st hf ho
      simp only [create_inputs_loop, b1]
      simp [b2, b3, b4]
  | succ m ih =>
    intro k i st hk h hfail
    obtain ⟨k, rfl⟩ : ∃ k', k = k' + 1 := ⟨k - 1, by omega⟩
    obtain ⟨b1, b2, b3, b4⟩ := create_inputs_body_ok env info i st (h i le_rfl (by omega))
    have hfail' : ¬ array_ok env info (i + 1 + m)
        ∨ (steps_before_object_ok env info (i + 1 + m)
            ∧ env.ok (.inputs_NewObject (i + 1 + m)) = false) := by
      have e : i + 1 + m = i + (m + 1) := by omega
      rw [e]; exact hfail
    obtain ⟨r1, ⟨msg, r2⟩, r3⟩ := ih k (i + 1) (create_inputs_body env info i st).1
      (by omega) (fun j hj1 hj2 => h j (by omega) (by omega)) hfail'
    simp only [create_inputs_loop, b1, if_true]
    refine ⟨?_, ⟨msg, ?_⟩, ?_⟩
    · rw [r1, b2]; simp [List.range'_succ]
    · rw [r2, b3]
    · rw [r3, b4]; simp [List.range'_succ]

/-! ## What the inputs step never touches -/

theorem frame_refl (st : JState) : Frame st st := ⟨rfl, rfl, [], by simp⟩

theorem Frame.trans {a b c : JState} (h1 : Frame a b) (h2 : Frame b c) : Frame a c := by
  obtain ⟨n1, f1, l1, c1⟩ := h1
  obtain ⟨n2, f2, l2, c2⟩ := h2
  exact ⟨n2.trans n1, f2.trans f1, l1 ++ l2, by rw [c2, c1, List.append_assoc]⟩

theorem frame_log (st : JState) (c : Call) : Frame st (st.log c) := ⟨rfl, rfl, [c], rfl⟩

theorem frame_throw (st : JState) (c : Excp) (msg : String) :
    Frame st (THROW_EXCEPTION st c msg) := ⟨rfl, rfl, [], by simp [THROW_EXCEPTION]⟩

theorem frame_add (st : JState) (v : JValue) : Frame st (CallVoidMethod_add st v) :=
  ⟨rfl, rfl, [.CallVoidMethod_add v], rfl⟩

theorem create_tuner_object_frame (env : JNIEnv) (i : Nat) (t : tuner_info) (st : JState) :
    Frame st (create_tuner_object env i t st).2 := by
  simp only [create_tuner_object]
  split_ifs
  · exact (frame_log _ _).trans (frame_throw _ _ _)
  · exact ((frame_log _ _).trans (frame_log _ _)).trans (frame_throw _ _ _)
  · exact (((frame_log _ _).trans (frame_log _ _)).trans (frame_log _ _)).trans (frame_log _ _)

theorem create_inputs_body_frame (env : JNIEnv) (info : device_info) (i : Nat) (st : JState) :
    Frame st (create_inputs_body env info i st).1 := by
  cases htun : (info.inputs i).tuner with
  | none =>
    simp only [create_inputs_body, htun]
    split_ifs
    · exact (frame_log _ _).trans (frame_throw _ _ _)
    · exact (((frame_log _ _).trans (frame_log _ _)).trans (frame_log _ _)).trans
        (frame_throw _ _ _)
    · exact (((frame_log _ _).trans (frame_log _ _)).trans (frame_log _ _)).trans
        (frame_add _ _)
  | some t =>
    simp only [create_inputs_body, htun]
    split_ifs
    · exact (frame_log _ _).trans (frame_throw _ _ _)
    · exact ((((frame_log _ _).trans (frame_log _ _)).trans
        (create_tuner_object_frame env i t _)).trans (frame_log _ _)).trans (frame_throw _ _ _)
    · exact ((((frame_log _ _).trans (frame_log _ _)).trans
        (create_tuner_object_frame env i t _)).trans (frame_log _ _)).trans (frame_add _ _)

theorem create_inputs_loop_frame (env : JNIEnv) (info : device_info) :
    ∀ (k i : Nat) (st : JState), Frame st (create_inputs_loop env info k i st) := by
  intro k
  induction k with
  | zero => intro i st; exact frame_refl st
  | succ k ih =>
    intro i st
    simp only [create_inputs_loop]
    split_ifs
    · exact (create_inputs_body_frame env info i st).trans (ih _ _)
    · exact create_inputs_body_frame env info i st

theorem create_inputs_object_frame (env : JNIEnv) (vd : video_device) (st : JState) :
    Frame st (create_inputs_object env vd st) := by
  simp only [create_inputs_object]
  split_ifs
  · exact (frame_log _ _).trans (frame_throw _ _ _)
  · exact ((frame_log _ _).trans (frame_log _ _)).trans (frame_throw _ _ _)
  · exact (((frame_log _ _).trans (frame_log _ _)).trans (frame_log _ _)).trans
      (frame_throw _ _ _)
  · exact (((frame_log _ _).trans (frame_log _ _)).trans (frame_log _ _)).trans (frame_log _ _)
  · exact (((((frame_log _ _).trans (frame_log _ _)).trans (frame_log _ _)).trans
      (frame_log _ _)).trans (frame_log _ _)).trans (frame_throw _ _ _)
  · exact ((((((frame_log _ _).trans (frame_log _ _)).trans (frame_log _ _)).trans
      (frame_log _ _)).trans (frame_log _ _)).trans (frame_log _ _)).trans (frame_throw _ _ _)
  · exact ((((((frame_log _ _).trans (frame_log _ _)).trans (frame_log _ _)).trans
      (frame_log _ _)).trans (frame_log _ _)).trans (frame_log _ _)).trans
      (create_inputs_loop_frame env vd.info _ _ _)

/-! ## `create_inputs_object` -/

theorem stds_elems_length (vi : video_input_info) (h : 0 ≤ vi.nb_stds) :
    ((stds_elems vi).length : Int) = vi.nb_stds := by
  simp [stds_elems, Int.toNat_of_nonneg h]

theorem stds_elems_getElem (vi : video_input_info) (k : Nat) (h : k < (stds_elems vi).length) :
    (stds_elems vi)[k]? = some (vi.supported_stds k) := by
  simp [stds_elems] at h
  simp [stds_elems, List.getElem?_range, h]

/-- Claim C2: when every lookup before the loop succeeds and every step of
every iteration succeeds, `create_inputs_object` appends exactly
`n = nb_inputs` objects to the `inputs` list, for `i = 0, ..., n - 1` in this
order; the object of input `i` is `InputInfo_object inputs[i]`: built from
the name, the standards array and the index, by the constructor with a
`TunerInfo` exactly when the input has a tuner. The standards array has
length `nb_stds` and its `k`-th element is `supported_stds[k]`. No exception
is raised and the objects created are those of inputs `0, ..., n - 1`. -/
theorem create_inputs_object_success (env : JNIEnv) (vd : video_device) (st : JState)
    (hlook : lookups_ok env)
    (hiter : ∀ i, i < vd.info.nb_inputs.toNat → iteration_ok env vd.info i) :
    (create_inputs_object env vd st).inputs
        = st.inputs ++ (List.range vd.info.nb_inputs.toNat).map
            (fun i => InputInfo_object (vd.info.inputs i))
    ∧ (∀ i, i < vd.info.nb_inputs.toNat →
        ((stds_elems (vd.info.inputs i)).length : Int) = (vd.info.inputs i).nb_stds
        ∧ ∀ k, k < (stds_elems (vd.info.inputs i)).length →
            (stds_elems (vd.info.inputs i))[k]? = some ((vd.info.inputs i).supported_stds k))
    ∧ (create_inputs_object env vd st).thrown = st.thrown
    ∧ created_inputs (create_inputs_object env vd st).calls
        = created_inputs st.calls ++ List.range vd.info.nb_inputs.toNat := by
  obtain ⟨l1, l2, l3, l4, l5, l6⟩ := hlook
  have hloop := create_inputs_loop_ok env vd.info vd.info.nb_inputs.toNat 0
  refine ⟨?_, ?_, ?_, ?_⟩
  · simp only [create_inputs_object, l1, l2, l3, l4, l5, l6, Bool.not_true, Bool.false_eq_true,
      if_false]
    rw [(hloop _ (fun j _ hj => hiter j (by omega))).1]
    simp [JState.log, List.range_eq_range']
  · intro i hi
    exact ⟨stds_elems_length _ (hiter i hi).1.1.2, fun k hk => stds_elems_getElem _ k hk⟩
  · simp only [create_inputs_object, l1, l2, l3, l4, l5, l6, Bool.not_true, Bool.false_eq_true,
      if_false]
    rw [(hloop _ (fun j _ hj => hiter j (by omega))).2.1]
    simp [JState.log]
  · simp only [create_inputs_object, l1, l2, l3, l4, l5, l6, Bool.not_true, Bool.false_eq_true,
      if_false]
    rw [(hloop _ (fun j _ hj => hiter j (by omega))).2.2]
    simp [JState.log, List.range_eq_range', created_inputs, created_input]

/-- Claim C7: if the lookups before the loop succeed, every step of the
iterations `0, ..., i - 1` succeeds and iteration `i < n` fails at its
standards array, or at its `InputInfo` object after its earlier steps
succeeded, then `create_inputs_object` raises `JNI_EXCP`, the `inputs` list
has received exactly the objects of inputs `0, ..., i - 1` in order, and the
`InputInfo` objects created are exactly those of inputs `0, ..., i - 1`. If a
lookup before the loop fails, nothing is appended and no `InputInfo` object
is created. -/
theorem create_inputs_object_not_atomic (env : JNIEnv) (vd : video_device) (st : JState) :
    (∀ i, lookups_ok env → i < vd.info.nb_inputs.toNat →
      (∀ j, j < i → iteration_ok env vd.info j) →
      (¬ array_ok env vd.info i
        ∨ (steps_before_object_ok env vd.info i ∧ env.ok (.inputs_NewObject i) = false)) →
        (create_inputs_object env vd st).inputs
            = st.inputs ++ (List.range i).map (fun j => InputInfo_object (vd.info.inputs j))
        ∧ (∃ msg, (create_inputs_object env vd st).thrown
            = st.thrown ++ [(Excp.JNI_EXCP, msg)])
        ∧ created_inputs (create_inputs_object env vd st).calls
            = created_inputs st.calls ++ List.range i)
    ∧ (¬ lookups_ok env →
        (create_inputs_object env vd st).inputs = st.inputs
        ∧ created_inputs (create_inputs_object env vd st).calls = created_inputs st.calls) := by
  constructor
  · intro i hlook hi hprev hfail
    obtain ⟨l1, l2, l3, l4, l5, l6⟩ := hlook
    have hloop := create_inputs_loop_fail env vd.info i vd.info.nb_inputs.toNat 0
    have hfail' : ¬ array_ok env vd.info (0 + i)
        ∨ (steps_before_object_ok env vd.info (0 + i)
            ∧ env.ok (.inputs_NewObject (0 + i)) = false) := by
      rw [Nat.zero_add]; exact hfail
    simp only [create_inputs_object, l1, l2, l3, l4, l5, l6, Bool.not_true, Bool.false_eq_true,
      if_false]
    obtain ⟨r1, ⟨msg, r2⟩, r3⟩ := hloop
      ((((((st.log (.FindClass .inputs_FindClass "au/edu/jcu/v4l4j/InputInfo")).log
        (.GetFieldID .inputs_GetFieldID "inputs" "Ljava/util/List;")).log
        (.GetObjectField .inputs_GetObjectField)).log
        (.lookupAddMethod .inputs_lookupAddMethod)).log
        (.GetMethodID .inputs_GetMethodID_wotuner "au/edu/jcu/v4l4j/InputInfo"
          "<init>" "(Ljava/lang/String;[II)V")).log
        (.GetMethodID .inputs_GetMethodID_wtuner "au/edu/jcu/v4l4j/InputInfo"
          "<init>" "(Ljava/lang/String;[ILau/edu/jcu/v4l4j/TunerInfo;I)V"))
      hi (fun j _ hj => hprev j (by omega)) hfail'
    refine ⟨?_, ⟨msg, ?_⟩, ?_⟩
    · rw [r1]; simp [JState.log, List.range_eq_range']
    · rw [r2]; simp [JState.log]
    · rw [r3]; simp [JState.log, List.range_eq_range', created_inputs, created_input]
  · intro h
    unfold lookups_ok at h
    simp only [create_inputs_object]
    split_ifs <;> simp_all [THROW_EXCEPTION, JState.log, created_inputs, created_input]

/-! ## `create_formats_object` and `getInfo` -/

theorem create_formats_object_ok (env : JNIEnv) (d : Nat) (st : JState)
    (h1 : env.ok .formats_FindClass = true) (h2 : env.ok .formats_GetMethodID = true)
    (h3 : env.ok .formats_GetFieldID = true) (h4 : env.ok .formats_NewObject = true) :
    (create_formats_object env d st).formats
        = .jobject "au/edu/jcu/v4l4j/ImageFormatList" "(J)V" [.jlong (to_jlong d)]
    ∧ (create_formats_object env d st).name = st.name
    ∧ (create_formats_object env d st).inputs = st.inputs
    ∧ (create_formats_object env d st).thrown = st.thrown := by
  simp [create_formats_object, h1, h2, h3, h4, NewObject, SetObjectField, JState.log,
    isNull_jobject]

theorem create_formats_object_entered (env : JNIEnv) (d : Nat) (st : JState) :
    ∃ rest, (create_formats_object env d st).calls
      = st.calls ++ .FindClass .formats_FindClass "au/edu/jcu/v4l4j/ImageFormatList" :: rest := by
  simp only [create_formats_object]
  split_ifs <;> simp [THROW_EXCEPTION, JState.log, SetObjectField]

theorem create_formats_object_thrown (env : JNIEnv) (d : Nat) (st : JState) :
    ∃ more, (create_formats_object env d st).thrown = st.thrown ++ more := by
  simp only [create_formats_object]
  split_ifs <;> simp [THROW_EXCEPTION, JState.log, SetObjectField]

theorem getInfo_device_found (env : JNIEnv) (lib : Libvideo) (ptr_bits : Nat)
    (v4l4j_device : Int) (st : JState)
    (hclass : env.ok .getInfo_GetObjectClass = true)
    (hfield : env.ok .getInfo_GetFieldID = true)
    (hdev : lib.get_device_info (lib.deref (to_uintptr ptr_bits v4l4j_device)).vdev = true) :
    Java_au_edu_jcu_v4l4j_DeviceInfo_getInfo env lib ptr_bits v4l4j_device st
      = create_formats_object env (to_uintptr ptr_bits v4l4j_device)
          (create_inputs_object env (lib.deref (to_uintptr ptr_bits v4l4j_device)).vdev
            (SetObjectField
              ((((st.log (.GetObjectClass .getInfo_GetObjectClass)).log
                (.GetFieldID .getInfo_GetFieldID "name" "Ljava/lang/String;")).log
                .get_device_info).log
                (.NewStringUTF .getInfo_NewStringUTF
                  (lib.deref (to_uintptr ptr_bits v4l4j_device)).vdev.info.name
                  (NewStringUTF env .getInfo_NewStringUTF
                    (lib.deref (to_uintptr ptr_bits v4l4j_device)).vdev.info.name)))
              "name"
              (NewStringUTF env .getInfo_NewStringUTF
                (lib.deref (to_uintptr ptr_bits v4l4j_device)).vdev.info.name))) := by
  simp [Java_au_edu_jcu_v4l4j_DeviceInfo_getInfo, hclass, hfield, hdev]

/-- Claim C1: when `get_device_info` returns non-`NULL`, the class and
`name` field of the `DeviceInfo` object are found, the name string is created
and the class, constructor and field lookups and the creation of the
`ImageFormatList` succeed, `getInfo` leaves the `name` field holding the
string built from `vd->info->name` and the `formats` field holding an
`ImageFormatList` built by the `(J)V` constructor from one argument, the
device pointer cast back to `jlong`; with 64-bit pointers that argument is
the `jlong` handle that was passed in. Nothing is assumed about the inputs
step, so the statement covers the case where every step succeeds. -/
theorem getInfo_success (env : JNIEnv) (lib : Libvideo) (ptr_bits : Nat)
    (v4l4j_device : Int) (st : JState)
    (hdev : lib.get_device_info (lib.deref (to_uintptr ptr_bits v4l4j_device)).vdev = true)
    (hclass : env.ok .getInfo_GetObjectClass = true)
    (hfield : env.ok .getInfo_GetFieldID = true)
    (hname : env.ok .getInfo_NewStringUTF = true)
    (hf1 : env.ok .formats_FindClass = true) (hf2 : env.ok .formats_GetMethodID = true)
    (hf3 : env.ok .formats_GetFieldID = true) (hf4 : env.ok .formats_NewObject = true) :
    (Java_au_edu_jcu_v4l4j_DeviceInfo_getInfo env lib ptr_bits v4l4j_device st).name
        = .jstring (lib.deref (to_uintptr ptr_bits v4l4j_device)).vdev.info.name
    ∧ (Java_au_edu_jcu_v4l4j_DeviceInfo_getInfo env lib ptr_bits v4l4j_device st).formats
        = .jobject "au/edu/jcu/v4l4j/ImageFormatList" "(J)V"
            [.jlong (to_jlong (to_uintptr ptr_bits v4l4j_device))]
    ∧ (ptr_bits = 64 → -2 ^ 63 ≤ v4l4j_device → v4l4j_device < 2 ^ 63 →
        to_jlong (to_uintptr ptr_bits v4l4j_device) = v4l4j_device) := by
  rw [getInfo_device_found env lib ptr_bits v4l4j_device st hclass hfield hdev]
  refine ⟨?_, ?_, ?_⟩
  · rw [(create_formats_object_ok env _ _ hf1 hf2 hf3 hf4).2.1,
      (create_inputs_object_frame env _ _).1]
    simp [SetObjectField, NewStringUTF, hname]
  · exact (create_formats_object_ok env _ _ hf1 hf2 hf3 hf4).1
  · intro hp hlo hhi
    subst hp
    exact to_jlong_to_uintptr_64 v4l4j_device hlo hhi

/-- Claim C8: when the class and the `name` field are found and
`get_device_info` returns non-`NULL`, `getInfo` is `create_formats_object`
run on the state left by `create_inputs_object`, itself run on the state in
which the `name` field has been set. Whatever `create_inputs_object` did,
`create_formats_object` is entered (its class lookup is the next call) and
the exceptions raised by the inputs step stay raised; when the lookups and
the creation of the `ImageFormatList` succeed, the `formats` field is
written and the exceptions raised are exactly those of the inputs step. -/
theorem getInfo_formats_follow_inputs (env : JNIEnv) (lib : Libvideo) (ptr_bits : Nat)
    (v4l4j_device : Int) (st : JState)
    (hclass : env.ok .getInfo_GetObjectClass = true)
    (hfield : env.ok .getInfo_GetFieldID = true)
    (hdev : lib.get_device_info (lib.deref (to_uintptr ptr_bits v4l4j_device)).vdev = true) :
    Java_au_edu_jcu_v4l4j_DeviceInfo_getInfo env lib ptr_bits v4l4j_device st
      = create_formats_object env (to_uintptr ptr_bits v4l4j_device)
          (create_inputs_object env (lib.deref (to_uintptr ptr_bits v4l4j_device)).vdev
            (SetObjectField
              ((((st.log (.GetObjectClass .getInfo_GetObjectClass)).log
                (.GetFieldID .getInfo_GetFieldID "name" "Ljava/lang/String;")).log
                .get_device_info).log
                (.NewStringUTF .getInfo_NewStringUTF
                  (lib.deref (to_uintptr ptr_bits v4l4j_device)).vdev.info.name
                  (NewStringUTF env .getInfo_NewStringUTF
                    (lib.deref (to_uintptr ptr_bits v4l4j_device)).vdev.info.name)))
              "name"
              (NewStringUTF env .getInfo_NewStringUTF
                (lib.deref (to_uintptr ptr_bits v4l4j_device)).vdev.info.name)))
    ∧ (env.ok .formats_FindClass = true → env.ok .formats_GetMethodID = true →
        env.ok .formats_GetFieldID = true → env.ok .formats_NewObject = true →
        (Java_au_edu_jcu_v4l4j_DeviceInfo_getInfo env lib ptr_bits v4l4j_device st).formats
          = .jobject "au/edu/jcu/v4l4j/ImageFormatList" "(J)V"
              [.jlong (to_jlong (to_uintptr ptr_bits v4l4j_device))]
        ∧ (Java_au_edu_jcu_v4l4j_DeviceInfo_getInfo env lib ptr_bits v4l4j_device st).thrown
          = (create_inputs_object env (lib.deref (to_uintptr ptr_bits v4l4j_device)).vdev
              (SetObjectField
                ((((st.log (.GetObjectClass .getInfo_GetObjectClass)).log
                  (.GetFieldID .getInfo_GetFieldID "name" "Ljava/lang/String;")).log
                  .get_device_info).log
                  (.NewStringUTF .getInfo_NewStringUTF
                    (lib.deref (to_uintptr ptr_bits v4l4j_device)).vdev.info.name
                    (NewStringUTF env .getInfo_NewStringUTF
                      (lib.deref (to_uintptr ptr_bits v4l4j_device)).vdev.info.name)))
                "name"
                (NewStringUTF env .getInfo_NewStringUTF
                  (lib.deref (to_uintptr ptr_bits v4l4j_device)).vdev.info.name))).thrown)
    ∧ (∃ rest,
        (Java_au_edu_jcu_v4l4j_DeviceInfo_getInfo env lib ptr_bits v4l4j_device st).calls
          = (create_inputs_object env (lib.deref (to_uintptr ptr_bits v4l4j_device)).vdev
              (SetObjectField
                ((((st.log (.GetObjectClass .getInfo_GetObjectClass)).log
                  (.GetFieldID .getInfo_GetFieldID "name" "Ljava/lang/String;")).log
                  .get_device_info).log
                  (.NewStringUTF .getInfo_NewStringUTF
                    (lib.deref (to_uintptr ptr_bits v4l4j_device)).vdev.info.name
                    (NewStringUTF env .getInfo_NewStringUTF
                      (lib.deref (to_uintptr ptr_bits v4l4j_device)).vdev.info.name)))
                "name"
                (NewStringUTF env .getInfo_NewStringUTF
                  (lib.deref (to_uintptr ptr_bits v4l4j_device)).vdev.info.name))).calls
            ++ .FindClass .formats_FindClass "au/edu/jcu/v4l4j/ImageFormatList" :: rest)
    ∧ (∃ more,
        (Java_au_edu_jcu_v4l4j_DeviceInfo_getInfo env lib ptr_bits v4l4j_device st).thrown
          = (create_inputs_object env (lib.deref (to_uintptr ptr_bits v4l4j_device)).vdev
              (SetObjectField
                ((((st.log (.GetObjectClass .getInfo_GetObjectClass)).log
                  (.GetFieldID .getInfo_GetFieldID "name" "Ljava/lang/String;")).log
                  .get_device_info).log
                  (.NewStringUTF .getInfo_NewStringUTF
                    (lib.deref (to_uintptr ptr_bits v4l4j_device)).vdev.info.name
                    (NewStringUTF env .getInfo_NewStringUTF
                      (lib.deref (to_uintptr ptr_bits v4l4j_device)).vdev.info.name)))
                "name"
                (NewStringUTF env .getInfo_NewStringUTF
                  (lib.deref (to_uintptr ptr_bits v4l4j_device)).vdev.info.name))).thrown ++ more) := by
  have hseq := getInfo_device_found env lib ptr_bits v4l4j_device st hclass hfield hdev
  refine ⟨hseq, ?_, ?_, ?_⟩
  · intro hf1 hf2 hf3 hf4
    rw [hseq]
    exact ⟨(create_formats_object_ok env _ _ hf1 hf2 hf3 hf4).1,
      (create_formats_object_ok env _ _ hf1 hf2 hf3 hf4).2.2.2⟩
  · rw [hseq]
    exact create_formats_object_entered env _ _
  · rw [hseq]
    exact create_formats_object_thrown env _ _

/-! ## The three exported functions -/

theorem lookups_ok_all : lookups_ok env_all_ok := ⟨rfl, rfl, rfl, rfl, rfl, rfl⟩

theorem iteration_ok_all (i : Nat) : iteration_ok env_all_ok info_example i := by
  rcases i with _ | i
  · exact ⟨⟨⟨rfl, by decide⟩, rfl, ⟨rfl, rfl, rfl, rfl⟩⟩, rfl⟩
  · exact ⟨⟨⟨rfl, show (0 : Int) ≤ 1 by decide⟩, rfl, trivial⟩, rfl⟩

theorem getInfo_success_witness :
    (Java_au_edu_jcu_v4l4j_DeviceInfo_getInfo env_all_ok lib_example 64 (-5) st_empty).name
        = .jstring "Webcam"
    ∧ (Java_au_edu_jcu_v4l4j_DeviceInfo_getInfo env_all_ok lib_example 64 (-5) st_empty).formats
        = .jobject "au/edu/jcu/v4l4j/ImageFormatList" "(J)V" [.jlong (-5)] := by
  have h := getInfo_success env_all_ok lib_example 64 (-5) st_empty rfl rfl rfl rfl rfl rfl
    rfl rfl
  refine ⟨h.1, ?_⟩
  rw [h.2.1, h.2.2 rfl (by norm_num) (by norm_num)]

theorem create_inputs_object_success_witness :
    (create_inputs_object env_all_ok vd_example st_empty).inputs
      = [ .jobject "au/edu/jcu/v4l4j/InputInfo"
            "(Ljava/lang/String;[ILau/edu/jcu/v4l4j/TunerInfo;I)V"
            [ .jstring "Television", .jintArray [1, 3],
              .jobject "au/edu/jcu/v4l4j/TunerInfo" "(Ljava/lang/String;IIIJJ)V"
                [.jstring "Television", .jint 0, .jint 1, .jint 2, .jlong 2147483648,
                 .jlong 4294967295],
              .jint 0 ],
          .jobject "au/edu/jcu/v4l4j/InputInfo" "(Ljava/lang/String;[II)V"
            [.jstring "Composite", .jintArray [2], .jint 1] ] :=
  (create_inputs_object_success env_all_ok vd_example st_empty lookups_ok_all
    (fun i _ => iteration_ok_all i)).1.trans rfl

theorem doListIntervals_result_witness :
    (Java_au_edu_jcu_v4l4j_DeviceInfo_doListIntervals env_all_ok lib_example 64 0 0 640 480
        st_empty).1
      = .jobject "au/edu/jcu/v4l4j/FrameInterval" "(IJ)V" [.jint 4, .jlong 4096]
    ∧ (Java_au_edu_jcu_v4l4j_DeviceInfo_doListIntervals env_all_ok lib_example 64 0 0 640 480
        st_empty).2.thrown = [] := by
  have h := doListIntervals_result env_all_ok lib_example 64 0 0 640 480 st_empty 1 4096 rfl
    ⟨by decide, by decide, by decide⟩
  refine ⟨((h.1 rfl rfl).2.1 rfl).1.trans rfl, ?_⟩
  have h2 := h.2
  by_contra hne
  have h3 := h2.mpr hne
  rw [((h.1 rfl rfl).2.1 rfl).1] at h3
  exact absurd h3 (by decide)

theorem getInfo_failure_paths_witness :
    (Java_au_edu_jcu_v4l4j_DeviceInfo_getInfo env_all_ok lib_no_info 64 0 st_empty).thrown
        = [(Excp.GENERIC_EXCP, "Error getting information from video device")]
    ∧ (Java_au_edu_jcu_v4l4j_DeviceInfo_getInfo env_all_ok lib_no_info 64 0 st_empty).inputs
        = [] :=
  ⟨((getInfo_failure_paths env_all_ok lib_no_info 64 0 st_empty).1 rfl rfl rfl).1.trans rfl,
   ((getInfo_failure_paths env_all_ok lib_no_info 64 0 st_empty).1 rfl rfl rfl).2.2.2.1.trans
     rfl⟩

theorem create_tuner_object_ctor_args_witness :
    (create_tuner_object env_all_ok 0 tuner_example st_empty).2.calls
      = [ .FindClass (.tuner_FindClass 0) "au/edu/jcu/v4l4j/TunerInfo",
          .GetMethodID (.tuner_GetMethodID 0) "au/edu/jcu/v4l4j/TunerInfo" "<init>"
            "(Ljava/lang/String;IIIJJ)V",
          .NewStringUTF (.tuner_NewStringUTF 0) "Television" (.jstring "Television"),
          .NewObject (.tuner_NewObject 0) "au/edu/jcu/v4l4j/TunerInfo"
            "(Ljava/lang/String;IIIJJ)V"
            [.jstring "Television", .jint 0, .jint 1, .jint 2, .jlong 2147483648,
             .jlong 4294967295]
            (.jobject "au/edu/jcu/v4l4j/TunerInfo" "(Ljava/lang/String;IIIJJ)V"
              [.jstring "Television", .jint 0, .jint 1, .jint 2, .jlong 2147483648,
               .jlong 4294967295]) ] :=
  (create_tuner_object_ctor_args env_all_ok 0 tuner_example st_empty rfl rfl).1.trans rfl

theorem create_inputs_object_not_atomic_witness :
    (create_inputs_object env_fail_second vd_example st_empty).inputs
      = [ .jobject "au/edu/jcu/v4l4j/InputInfo"
            "(Ljava/lang/String;[ILau/edu/jcu/v4l4j/TunerInfo;I)V"
            [ .jstring "Television", .jintArray [1, 3],
              .jobject "au/edu/jcu/v4l4j/TunerInfo" "(Ljava/lang/String;IIIJJ)V"
                [.jstring "Television", .jint 0, .jint 1, .jint 2, .jlong 2147483648,
                 .jlong 4294967295],
              .jint 0 ] ]
    ∧ created_inputs (create_inputs_object env_fail_second vd_example st_empty).calls = [0] := by
  have h := (create_inputs_object_not_atomic env_fail_second vd_example st_empty).1 1
    ⟨rfl, rfl, rfl, rfl, rfl, rfl⟩ (by decide)
    (fun j hj => by
      obtain rfl : j = 0 := by omega
      exact ⟨⟨⟨rfl, by decide⟩, rfl, ⟨rfl, rfl, rfl, rfl⟩⟩, rfl⟩)
    (Or.inr ⟨⟨⟨rfl, by decide⟩, rfl, trivial⟩, rfl⟩)
  exact ⟨h.1.trans rfl, h.2.2.trans rfl⟩

theorem getInfo_formats_follow_inputs_witness :
    (Java_au_edu_jcu_v4l4j_DeviceInfo_getInfo env_no_InputInfo lib_example 64 7 st_empty).formats
        = .jobject "au/edu/jcu/v4l4j/ImageFormatList" "(J)V" [.jlong 7]
    ∧ (Java_au_edu_jcu_v4l4j_DeviceInfo_getInfo env_no_InputInfo lib_example 64 7 st_empty).thrown
        = [(Excp.JNI_EXCP, "Error looking up InputInfo class")] := by
  have h := (getInfo_formats_follow_inputs env_no_InputInfo lib_example 64 7 st_empty rfl rfl
    rfl).2.1 rfl rfl rfl rfl
  exact ⟨h.1.trans rfl, h.2.trans rfl⟩

end V4l4j
